import Mathlib

set_option maxRecDepth 100000

/-
  Verification development for the EspVault flight-recorder core.

  The definitions below are a shallow embedding of the C sources:
    - components/vault_mqtt/vault_protocol.h   (packet layout, constants)
    - components/vault_memory/vault_memory.h/.c (history store, sequence allocator)
    - components/vault_mqtt/vault_mqtt.c        (replay engine)
  Machine integers are modelled as Nat with explicit reduction modulo 2^32
  where 32-bit overflow matters.
-/

namespace EspVault

/-- Start-of-frame marker VAULT_PROTO_HEAD from vault_protocol.h. -/
def VAULT_PROTO_HEAD : Nat := 0xAA

/-- Total packet size in bytes, VAULT_PROTO_PACKET_SIZE from vault_protocol.h. -/
def VAULT_PROTO_PACKET_SIZE : Nat := 13

/-- Command id VAULT_CMD_EVENT from vault_protocol.h. -/
def VAULT_CMD_EVENT : Nat := 0x02

/-- Command id VAULT_CMD_REPLAY from vault_protocol.h. -/
def VAULT_CMD_REPLAY : Nat := 0x04

/-- Flag bit 0, VAULT_FLAG_IS_REPLAY from vault_protocol.h. -/
def VAULT_FLAG_IS_REPLAY : Nat := 1

/-- Modulus of unsigned 32-bit arithmetic. -/
def U32_MOD : Nat := 4294967296

/-- Unsigned 32-bit subtraction a - b as computed by the C code on uint32_t. -/
def u32_sub (a b : Nat) : Nat := (a + U32_MOD - b % U32_MOD) % U32_MOD

/-- VAULT_HISTORY_BUFFER_SIZE from vault_memory.h: 2 MiB history region. -/
def VAULT_HISTORY_BUFFER_SIZE : Nat := 2 * 1024 * 1024

/-- VAULT_HISTORY_MAX_ENTRIES from vault_memory.h:
    VAULT_HISTORY_BUFFER_SIZE / sizeof(vault_packet_t) = 2097152 / 13 = 161319. -/
def VAULT_HISTORY_MAX_ENTRIES : Nat := VAULT_HISTORY_BUFFER_SIZE / VAULT_PROTO_PACKET_SIZE

/-- VAULT_SEQ_SYNC_INTERVAL from vault_memory.h: sync to NVS every 10 events. -/
def VAULT_SEQ_SYNC_INTERVAL : Nat := 10

/-- The packed 13-byte vault_packet_t of vault_protocol.h.  Each field is a
    Nat standing for the corresponding u8 or little-endian u32 value. -/
structure vault_packet_t where
  head : Nat
  cmd : Nat
  seq : Nat
  pin : Nat
  flags : Nat
  val : Nat
  crc : Nat
  deriving DecidableEq, Repr

/-- Field ranges of vault_packet_t: u8 fields below 256, u32 fields below 2^32. -/
def vault_packet_wf (p : vault_packet_t) : Prop :=
  p.head < 256 ∧ p.cmd < 256 ∧ p.seq < U32_MOD ∧ p.pin < 256 ∧
  p.flags < 256 ∧ p.val < U32_MOD ∧ p.crc < 256

instance (p : vault_packet_t) : Decidable (vault_packet_wf p) := by
  unfold vault_packet_wf; infer_instance

/-- Modelled from the spec: vault_protocol.c is not under src/ (only
    vault_protocol.h and the CONTRIBUTING.md excerpt of
    vault_protocol_calc_crc8 are).  One table entry of the table-driven CRC8:
    the unspecified constant table crc8_table is expanded to the equivalent
    bitwise MSB-first algorithm; the exact polynomial is an open question in
    the spec, 0x07 is used here.  The round-trip property is insensitive to
    the table contents. -/
def crc8_shift : Nat → Nat → Nat
  | 0, c => c
  | k + 1, c =>
      crc8_shift k
        (if c &&& 0x80 ≠ 0 then ((c <<< 1) ^^^ 0x07) &&& 0xFF else (c <<< 1) &&& 0xFF)

/-- Modelled from the spec: entry x of the CRC8 lookup table. -/
def crc8_table_entry (x : Nat) : Nat := crc8_shift 8 (x % 256)

/-- vault_protocol_calc_crc8 following the CONTRIBUTING.md body:
    crc starts at 0x00 and each byte updates it through the table. -/
def vault_protocol_calc_crc8 (data : List Nat) : Nat :=
  data.foldl (fun crc b => crc8_table_entry (crc ^^^ b)) 0x00

/-- Little-endian byte decomposition of a u32 value. -/
def u32_le_bytes (v : Nat) : List Nat :=
  [v % 256, v / 256 % 256, v / 65536 % 256, v / 16777216 % 256]

/-- Little-endian recomposition of a u32 value from four bytes. -/
def u32_of_le_bytes (b0 b1 b2 b3 : Nat) : Nat :=
  b0 + 256 * b1 + 65536 * b2 + 16777216 * b3

/-- Modelled from the spec: vault_protocol_serialize, the fixed little-endian
    13-byte layout of the wire-record table (offsets 0..12). -/
def vault_protocol_serialize (p : vault_packet_t) : List Nat :=
  [p.head, p.cmd] ++ u32_le_bytes p.seq ++ [p.pin, p.flags] ++ u32_le_bytes p.val ++ [p.crc]

/-- Bytes 0..11 of the serialized packet, the ones covered by the checksum. -/
def vault_packet_header_bytes (p : vault_packet_t) : List Nat :=
  (vault_protocol_serialize p).take 12

/-- Modelled from the spec: vault_protocol_finalize_packet computes the
    checksum over bytes 0..11 and writes it into byte 12. -/
def vault_protocol_finalize_packet (p : vault_packet_t) : vault_packet_t :=
  { p with crc := vault_protocol_calc_crc8 (vault_packet_header_bytes p) }

/-- Modelled from the spec: vault_protocol_init_packet sets sentinel, command
    and sequence and zeroes channel, flags and value; checksum left unset. -/
def vault_protocol_init_packet (cmd seq : Nat) : vault_packet_t :=
  { head := VAULT_PROTO_HEAD, cmd := cmd, seq := seq, pin := 0, flags := 0, val := 0, crc := 0 }

/-- A sealed packet: its stored checksum equals the checksum of bytes 0..11. -/
def vault_packet_sealed (p : vault_packet_t) : Prop :=
  p.crc = vault_protocol_calc_crc8 (vault_packet_header_bytes p)

instance (p : vault_packet_t) : Decidable (vault_packet_sealed p) := by
  unfold vault_packet_sealed; infer_instance

/-- Modelled from the spec: vault_protocol_parse fails on wrong length, on a
    sentinel mismatch, and on a checksum mismatch; otherwise it rebuilds the
    record from the little-endian layout. -/
def vault_protocol_parse (data : List Nat) : Option vault_packet_t :=
  if data.length ≠ VAULT_PROTO_PACKET_SIZE then none
  else
    match data with
    | [b0, b1, b2, b3, b4, b5, b6, b7, b8, b9, b10, b11, b12] =>
        if b0 ≠ VAULT_PROTO_HEAD then none
        else if vault_protocol_calc_crc8 [b0, b1, b2, b3, b4, b5, b6, b7, b8, b9, b10, b11] ≠ b12 then none
        else some
          { head := b0, cmd := b1, seq := u32_of_le_bytes b2 b3 b4 b5, pin := b6,
            flags := b7, val := u32_of_le_bytes b8 b9 b10 b11, crc := b12 }
    | _ => none

/-- Concrete sealed packet used as the round-trip witness input. -/
def c2_example_packet : vault_packet_t :=
  vault_protocol_finalize_packet
    { head := VAULT_PROTO_HEAD, cmd := VAULT_CMD_EVENT, seq := 7, pin := 3,
      flags := 2, val := 1000, crc := 0 }

lemma u32_le_round (v : Nat) (h : v < U32_MOD) :
    u32_of_le_bytes (v % 256) (v / 256 % 256) (v / 65536 % 256) (v / 16777216 % 256) = v := by
  unfold u32_of_le_bytes U32_MOD at *
  omega

lemma header_bytes_crc_irrelevant (p : vault_packet_t) (c : Nat) :
    vault_packet_header_bytes { p with crc := c } = vault_packet_header_bytes p := by
  rfl

lemma finalize_sealed_eq (p : vault_packet_t) (h : vault_packet_sealed p) :
    vault_protocol_finalize_packet p = p := by
  unfold vault_protocol_finalize_packet
  unfold vault_packet_sealed at h
  rw [← h]

/-- C2: for every valid (sealed) record, parsing the 13-byte little-endian
    serialization of the finalized record reconstructs the identical record. -/
theorem parse_serialize_finalize_roundtrip (p : vault_packet_t)
    (hwf : vault_packet_wf p) (hhead : p.head = VAULT_PROTO_HEAD)
    (hseal : vault_packet_sealed p) :
    vault_protocol_parse (vault_protocol_serialize (vault_protocol_finalize_packet p)) = some p := by
  rw [finalize_sealed_eq p hseal]
  obtain ⟨h1, h2, h3, h4, h5, h6, h7⟩ := hwf
  unfold vault_protocol_parse vault_protocol_serialize u32_le_bytes
  have hlen : ([p.head, p.cmd] ++ [p.seq % 256, p.seq / 256 % 256, p.seq / 65536 % 256,
      p.seq / 16777216 % 256] ++ [p.pin, p.flags] ++ [p.val % 256, p.val / 256 % 256,
      p.val / 65536 % 256, p.val / 16777216 % 256] ++ [p.crc]).length = VAULT_PROTO_PACKET_SIZE := by
    simp [VAULT_PROTO_PACKET_SIZE]
  simp only [List.cons_append, List.nil_append]
  rw [if_neg (by simp [VAULT_PROTO_PACKET_SIZE])]
  rw [if_neg (by simp [hhead])]
  have hcrc : vault_protocol_calc_crc8 [p.head, p.cmd, p.seq % 256, p.seq / 256 % 256,
      p.seq / 65536 % 256, p.seq / 16777216 % 256, p.pin, p.flags, p.val % 256,
      p.val / 256 % 256, p.val / 65536 % 256, p.val / 16777216 % 256] = p.crc := by
    unfold vault_packet_sealed vault_packet_header_bytes vault_protocol_serialize u32_le_bytes at hseal
    simp only [List.cons_append, List.nil_append, List.take] at hseal
    exact hseal.symm
  rw [if_neg (by simp [hcrc])]
  rw [u32_le_round p.seq h3, u32_le_round p.val h6]

/-- C2 witness: the round trip evaluated on a concrete sealed event packet. -/
theorem parse_serialize_finalize_roundtrip_witness :
    vault_packet_wf c2_example_packet ∧ c2_example_packet.head = VAULT_PROTO_HEAD ∧
    vault_packet_sealed c2_example_packet ∧
    vault_protocol_parse (vault_protocol_serialize
      (vault_protocol_finalize_packet c2_example_packet)) = some c2_example_packet :=
  ⟨by decide, by decide, by decide,
    parse_serialize_finalize_roundtrip c2_example_packet (by decide) (by decide) (by decide)⟩

/-- State of the memory manager vault_memory_t (vault_memory.h).  The 2 MiB
    byte region history_buffer is modelled at 13-byte slot granularity, the
    way the readers find_by_seq and get_range interpret it: history_slots i
    is the packet whose bytes occupy offsets 13*i .. 13*i+12.  The fields
    history_write_pos, history_count, seq_counter and seq_last_synced are the
    uint32_t fields of the struct. -/
structure vault_memory_t where
  history_slots : Nat → vault_packet_t
  history_write_pos : Nat
  history_count : Nat
  seq_counter : Nat
  seq_last_synced : Nat
  initialized : Bool

/-- search_count of vault_memory.c lines 160-161 and 186-187:
    (count < VAULT_HISTORY_MAX_ENTRIES) ? count : VAULT_HISTORY_MAX_ENTRIES. -/
def vault_memory_search_count (mem : vault_memory_t) : Nat :=
  if mem.history_count < VAULT_HISTORY_MAX_ENTRIES then mem.history_count
  else VAULT_HISTORY_MAX_ENTRIES

/-- Slot index scanned at loop iteration i by find_by_seq and get_range
    (vault_memory.c lines 164 and 190):
    (history_write_pos - search_count + i) % VAULT_HISTORY_MAX_ENTRIES,
    with the subtraction performed in unsigned 32-bit arithmetic. -/
def vault_memory_read_pos (wp sc i : Nat) : Nat :=
  ((wp + (U32_MOD - sc) + i) % U32_MOD) % VAULT_HISTORY_MAX_ENTRIES

/-- Byte offset at which vault_memory_store_history writes the record
    (vault_memory.c lines 135-136):
    (history_write_pos * sizeof(vault_packet_t)) % VAULT_HISTORY_BUFFER_SIZE,
    computed in unsigned 32-bit arithmetic. -/
def vault_store_byte_offset (wp : Nat) : Nat :=
  ((wp * VAULT_PROTO_PACKET_SIZE) % U32_MOD) % VAULT_HISTORY_BUFFER_SIZE

/-- Byte offset from which find_by_seq and get_range read the record of
    write index w (vault_memory.c lines 164-165 and 190-191): the slot index
    is reduced modulo VAULT_HISTORY_MAX_ENTRIES and then multiplied by
    sizeof(vault_packet_t). -/
def vault_reader_byte_offset (w : Nat) : Nat :=
  ((w % VAULT_HISTORY_MAX_ENTRIES) * VAULT_PROTO_PACKET_SIZE) % U32_MOD

/-- The loop of vault_memory_get_range (lines 189-198): scan the valid
    window oldest-to-newest, collect records with
    seq_start ≤ seq ≤ seq_end while found < max_count.  The fuel argument is
    the number of remaining iterations (initially search_count), i the loop
    index and found the number of records collected so far. -/
def vault_memory_get_range_loop (slots : Nat → vault_packet_t)
    (wp sc seq_start seq_end max_count : Nat) : Nat → Nat → Nat → List vault_packet_t
  | 0, _, _ => []
  | fuel + 1, i, found =>
      if found < max_count then
        let stored := slots (vault_memory_read_pos wp sc i)
        if seq_start ≤ stored.seq ∧ stored.seq ≤ seq_end then
          stored :: vault_memory_get_range_loop slots wp sc seq_start seq_end max_count fuel (i + 1) (found + 1)
        else
          vault_memory_get_range_loop slots wp sc seq_start seq_end max_count fuel (i + 1) found
      else []

/-- vault_memory_get_range (vault_memory.c lines 177-201).  The C function
    copies the found records into a caller-supplied array and returns their
    number; the model returns the list of copied records (its length is the
    C return value).  The NULL-pointer guards of line 181 are outside a
    by-value model; the initialized and max_count guards are kept. -/
def vault_memory_get_range (mem : vault_memory_t) (seq_start seq_end max_count : Nat) :
    List vault_packet_t :=
  if mem.initialized = false ∨ max_count = 0 then []
  else
    vault_memory_get_range_loop mem.history_slots mem.history_write_pos
      (vault_memory_search_count mem) seq_start seq_end max_count
      (vault_memory_search_count mem) 0 0

/-- The loop of vault_memory_find_by_seq (lines 163-172): first record of the
    valid window whose sequence equals the target, scanning oldest-to-newest. -/
def vault_memory_find_loop (slots : Nat → vault_packet_t) (wp sc target : Nat) :
    Nat → Nat → Option vault_packet_t
  | 0, _ => none
  | fuel + 1, i =>
      let stored := slots (vault_memory_read_pos wp sc i)
      if stored.seq = target then some stored
      else vault_memory_find_loop slots wp sc target fuel (i + 1)

/-- vault_memory_find_by_seq (vault_memory.c lines 150-175). -/
def vault_memory_find_by_seq (mem : vault_memory_t) (seq : Nat) : Option vault_packet_t :=
  if mem.initialized = false then none
  else
    vault_memory_find_loop mem.history_slots mem.history_write_pos
      (vault_memory_search_count mem) seq (vault_memory_search_count mem) 0

/-- The valid window of the store, oldest-to-newest: the packets at the slot
    indices the readers scan, in scan order. -/
def vault_memory_valid_window (mem : vault_memory_t) : List vault_packet_t :=
  (List.range (vault_memory_search_count mem)).map
    (fun i => mem.history_slots
      (vault_memory_read_pos mem.history_write_pos (vault_memory_search_count mem) i))

lemma get_range_loop_eq (slots : Nat → vault_packet_t) (wp sc s e maxc : Nat) :
    ∀ (fuel i found : Nat),
      vault_memory_get_range_loop slots wp sc s e maxc fuel i found =
      (((List.range fuel).map (fun j => slots (vault_memory_read_pos wp sc (i + j)))).filter
          (fun p => decide (s ≤ p.seq ∧ p.seq ≤ e))).take (maxc - found) := by
  intro fuel
  induction fuel with
  | zero => intro i found; simp [vault_memory_get_range_loop]
  | succ n ih =>
      intro i found
      rw [List.range_succ_eq_map]
      simp only [List.map_cons, List.map_map]
      have hmap : (List.range n).map ((fun j => slots (vault_memory_read_pos wp sc (i + j))) ∘ Nat.succ)
          = (List.range n).map (fun j => slots (vault_memory_read_pos wp sc ((i + 1) + j))) := by
        apply List.map_congr_left
        intro j _
        simp only [Function.comp_apply]
        congr 2
        omega
      rw [hmap]
      by_cases hfound : found < maxc
      · have htake : maxc - found = (maxc - (found + 1)) + 1 := by omega
        by_cases hin : s ≤ (slots (vault_memory_read_pos wp sc (i + 0))).seq ∧
            (slots (vault_memory_read_pos wp sc (i + 0))).seq ≤ e
        · rw [vault_memory_get_range_loop, if_pos hfound]
          simp only [Nat.add_zero] at hin ⊢
          rw [if_pos hin, ih (i + 1) (found + 1)]
          rw [List.filter_cons_of_pos (by simpa using hin), htake, List.take_succ_cons]
        · rw [vault_memory_get_range_loop, if_pos hfound]
          simp only [Nat.add_zero] at hin ⊢
          rw [if_neg hin, ih (i + 1) found]
          rw [List.filter_cons_of_neg (by simpa using hin)]
      · rw [vault_memory_get_range_loop, if_neg hfound]
        have : maxc - found = 0 := by omega
        rw [this, List.take_zero]

/-- Shared refinement fact: get_range equals the in-range filter of the valid
    window, oldest-to-newest, truncated at max_count. -/
lemma vault_memory_get_range_eq (mem : vault_memory_t) (s e maxc : Nat)
    (hinit : mem.initialized = true) :
    vault_memory_get_range mem s e maxc =
    ((vault_memory_valid_window mem).filter (fun p => decide (s ≤ p.seq ∧ p.seq ≤ e))).take maxc := by
  unfold vault_memory_get_range vault_memory_valid_window
  rcases Nat.eq_zero_or_pos maxc with hm | hm
  · simp [hinit, hm]
  · rw [if_neg (by simp [hinit]; omega)]
    rw [get_range_loop_eq]
    simp

lemma vault_memory_get_range_length_le (mem : vault_memory_t) (s e maxc : Nat) :
    (vault_memory_get_range mem s e maxc).length ≤ maxc := by
  by_cases hinit : mem.initialized = true
  · rw [vault_memory_get_range_eq mem s e maxc hinit]
    exact le_trans (List.length_take_le _ _) (le_refl _)
  · unfold vault_memory_get_range
    rw [if_pos (by left; simpa using hinit)]
    simp

/-- Concrete history state for the get_range witness: three records with
    sequences 4, 9, 6 stored in slots 0..2. -/
def c4_example_mem : vault_memory_t :=
  { history_slots := fun i =>
      if i = 0 then vault_protocol_init_packet VAULT_CMD_EVENT 4
      else if i = 1 then vault_protocol_init_packet VAULT_CMD_EVENT 9
      else if i = 2 then vault_protocol_init_packet VAULT_CMD_EVENT 6
      else vault_protocol_init_packet VAULT_CMD_EVENT 0,
    history_write_pos := 3, history_count := 3,
    seq_counter := 10, seq_last_synced := 10, initialized := true }

/-- C4: get_range returns exactly the valid-window records whose sequence
    lies in [seq_start, seq_end], in oldest-to-newest window order, truncated
    at max_count. -/
theorem get_range_returns_window_filter (mem : vault_memory_t) (s e maxc : Nat)
    (hinit : mem.initialized = true) :
    vault_memory_get_range mem s e maxc =
    ((vault_memory_valid_window mem).filter (fun p => decide (s ≤ p.seq ∧ p.seq ≤ e))).take maxc :=
  vault_memory_get_range_eq mem s e maxc hinit

/-- C4 witness: the refinement evaluated on a concrete three-record window. -/
theorem get_range_returns_window_filter_witness :
    c4_example_mem.initialized = true ∧
    vault_memory_get_range c4_example_mem 4 8 10 =
      ((vault_memory_valid_window c4_example_mem).filter
        (fun p => decide (4 ≤ p.seq ∧ p.seq ≤ 8))).take 10 ∧
    vault_memory_get_range c4_example_mem 4 8 10 =
      [vault_protocol_init_packet VAULT_CMD_EVENT 4, vault_protocol_init_packet VAULT_CMD_EVENT 6] :=
  ⟨rfl, get_range_returns_window_filter c4_example_mem 4 8 10 rfl, by decide⟩

/-- C1: at write cursor 161319 = VAULT_HISTORY_MAX_ENTRIES (the first wrap of
    the 2 MiB region) the byte offset written by vault_memory_store_history is
    2097147: it is not the slot offset 0 that find_by_seq and get_range read
    for that write index, and the 13-byte record overruns the 2097152-byte
    region. -/
theorem store_offset_diverges_from_reader_slots :
    vault_store_byte_offset VAULT_HISTORY_MAX_ENTRIES = 2097147 ∧
    vault_store_byte_offset VAULT_HISTORY_MAX_ENTRIES + VAULT_PROTO_PACKET_SIZE >
      VAULT_HISTORY_BUFFER_SIZE ∧
    vault_reader_byte_offset VAULT_HISTORY_MAX_ENTRIES = 0 ∧
    vault_store_byte_offset VAULT_HISTORY_MAX_ENTRIES ≠
      vault_reader_byte_offset VAULT_HISTORY_MAX_ENTRIES := by
  refine ⟨by decide, by decide, by decide, by decide⟩

/-- State of the MQTT client vault_mqtt_t as far as the replay engine reads
    it: the memory manager it was initialized with and the initialized and
    connected flags. -/
structure vault_mqtt_t where
  memory : vault_memory_t
  connected : Bool
  initialized : Bool

/-- vault_mqtt_publish_event (vault_mqtt.c lines 216-237): serialize the
    packet and hand the bytes to the broker client.  The broker client
    esp_mqtt_client_publish is an external collaborator, modelled by the
    oracle pub_ok on the serialized bytes (true iff msg_id ≥ 0). -/
def vault_mqtt_publish_event (pub_ok : List Nat → Bool) (mqtt : vault_mqtt_t)
    (p : vault_packet_t) : Bool :=
  if mqtt.initialized = false ∨ mqtt.connected = false then false
  else pub_ok (vault_protocol_serialize p)

/-- Re-stamping done by the replay loop (vault_mqtt.c lines 298-299): set the
    replay flag bit and recompute the CRC. -/
def vault_replay_restamp (p : vault_packet_t) : vault_packet_t :=
  vault_protocol_finalize_packet { p with flags := p.flags ||| VAULT_FLAG_IS_REPLAY }

/-- vault_mqtt_handle_replay (vault_mqtt.c lines 276-305).  Returns the C
    return value count, the list of (re-stamped record, publish outcome)
    pairs in the order the records were passed to the publisher, and the
    memory manager state after the call.  The records are copied out of the
    history by get_range into a locally allocated array; the loop mutates
    only that local array.  The malloc-failure early return (line 285) is an
    external out-of-memory condition and is not modelled. -/
def vault_mqtt_handle_replay (pub_ok : List Nat → Bool) (mqtt : vault_mqtt_t)
    (seq_start seq_end : Nat) : Nat × List (vault_packet_t × Bool) × vault_memory_t :=
  if mqtt.initialized = false ∨ mqtt.connected = false then (0, [], mqtt.memory)
  else
    let packets := vault_memory_get_range mqtt.memory seq_start seq_end 100
    let published := packets.map
      (fun p => (vault_replay_restamp p, vault_mqtt_publish_event pub_ok mqtt (vault_replay_restamp p)))
    (packets.length, published, mqtt.memory)

/-- Publish oracle that always succeeds. -/
def pub_always (_ : List Nat) : Bool := true

/-- Publish oracle that always fails. -/
def pub_never (_ : List Nat) : Bool := false

/-- Sealed event packet with the given sequence, as the producer stores it. -/
def mk_event_packet (seq : Nat) : vault_packet_t :=
  vault_protocol_finalize_packet (vault_protocol_init_packet VAULT_CMD_EVENT seq)

/-- History holding sequence 5 in the older slot and sequence 3 in the newer
    one: records stored out of ascending sequence order. -/
def c7_mem_out_of_order : vault_memory_t :=
  { history_slots := fun i =>
      if i = 0 then mk_event_packet 5
      else if i = 1 then mk_event_packet 3
      else mk_event_packet 0,
    history_write_pos := 2, history_count := 2,
    seq_counter := 6, seq_last_synced := 0, initialized := true }

/-- Connected MQTT state over the out-of-order history. -/
def c7_mqtt_out_of_order : vault_mqtt_t :=
  { memory := c7_mem_out_of_order, connected := true, initialized := true }

/-- History holding sequences 3 then 5 in ascending order. -/
def c7_mem_in_order : vault_memory_t :=
  { history_slots := fun i =>
      if i = 0 then mk_event_packet 3
      else if i = 1 then mk_event_packet 5
      else mk_event_packet 0,
    history_write_pos := 2, history_count := 2,
    seq_counter := 6, seq_last_synced := 0, initialized := true }

/-- Connected MQTT state over the in-order history. -/
def c7_mqtt_in_order : vault_mqtt_t :=
  { memory := c7_mem_in_order, connected := true, initialized := true }

/-- History holding a single record with sequence 4. -/
def c8_mem_single : vault_memory_t :=
  { history_slots := fun i => if i = 0 then mk_event_packet 4 else mk_event_packet 0,
    history_write_pos := 1, history_count := 1,
    seq_counter := 5, seq_last_synced := 0, initialized := true }

/-- Connected MQTT state over the single-record history. -/
def c8_mqtt_single : vault_mqtt_t :=
  { memory := c8_mem_single, connected := true, initialized := true }

lemma restamp_seq (p : vault_packet_t) : (vault_replay_restamp p).seq = p.seq := rfl

lemma restamp_flag_bit (p : vault_packet_t) :
    (vault_replay_restamp p).flags.testBit 0 = true := by
  show (p.flags ||| VAULT_FLAG_IS_REPLAY).testBit 0 = true
  rw [Nat.testBit_or]
  simp [VAULT_FLAG_IS_REPLAY]

lemma restamp_sealed (p : vault_packet_t) : vault_packet_sealed (vault_replay_restamp p) := by
  show (vault_protocol_finalize_packet _).crc =
    vault_protocol_calc_crc8 (vault_packet_header_bytes (vault_protocol_finalize_packet _))
  rw [vault_protocol_finalize_packet, header_bytes_crc_irrelevant]

/-- C6: every replay request republishes at most 100 = MAX_BATCH records, and
    every record passed to the publisher has the replay flag (bit 0) set and
    a freshly recomputed checksum that matches its bytes 0..11. -/
theorem handle_replay_bounded_flagged_sealed (pub_ok : List Nat → Bool)
    (mqtt : vault_mqtt_t) (seq_start seq_end : Nat) :
    (vault_mqtt_handle_replay pub_ok mqtt seq_start seq_end).1 ≤ 100 ∧
    ((vault_mqtt_handle_replay pub_ok mqtt seq_start seq_end).2.1.all
      (fun q => q.1.flags.testBit 0 && decide (vault_packet_sealed q.1))) = true := by
  unfold vault_mqtt_handle_replay
  by_cases hguard : mqtt.initialized = false ∨ mqtt.connected = false
  · rw [if_pos hguard]
    simp
  · rw [if_neg hguard]
    constructor
    · exact vault_memory_get_range_length_le mqtt.memory seq_start seq_end 100
    · rw [List.all_eq_true]
      intro q hq
      simp only [List.mem_map] at hq
      obtain ⟨p, _, rfl⟩ := hq
      rw [Bool.and_eq_true, restamp_flag_bit]
      exact ⟨rfl, by simp [restamp_sealed p]⟩

/-- C7 counterexample: with records stored out of ascending order (sequence 5
    stored before sequence 3), handle_replay passes them to the publisher in
    stored order 5, 3, which is not ascending sequence order. -/
theorem handle_replay_not_sorted_counterexample :
    ((vault_mqtt_handle_replay pub_always c7_mqtt_out_of_order 0 10).2.1.map
      (fun q => q.1.seq)) = [5, 3] ∧
    ¬ ((vault_mqtt_handle_replay pub_always c7_mqtt_out_of_order 0 10).2.1.map
      (fun q => q.1.seq)).Sorted (· < ·) := by
  refine ⟨by decide, by decide⟩

/-- C7 amended: handle_replay passes the selected records to the publisher in
    stored (oldest-to-newest window) order; whenever the valid window is in
    ascending sequence order, the published sequence order is ascending. -/
theorem handle_replay_sorted_of_window_sorted (pub_ok : List Nat → Bool)
    (mqtt : vault_mqtt_t) (seq_start seq_end : Nat)
    (hsorted : ((vault_memory_valid_window mqtt.memory).map vault_packet_t.seq).Sorted (· < ·)) :
    (((vault_mqtt_handle_replay pub_ok mqtt seq_start seq_end).2.1.map
      (fun q => q.1.seq)).Sorted (· < ·)) := by
  unfold vault_mqtt_handle_replay
  by_cases hguard : mqtt.initialized = false ∨ mqtt.connected = false
  · rw [if_pos hguard]
    simp [List.Sorted]
  · rw [if_neg hguard]
    simp only [List.map_map]
    have hmapeq : ((vault_memory_get_range mqtt.memory seq_start seq_end 100).map
        ((fun q : vault_packet_t × Bool => q.1.seq) ∘
          (fun p => (vault_replay_restamp p, vault_mqtt_publish_event pub_ok mqtt (vault_replay_restamp p))))) =
        ((vault_memory_get_range mqtt.memory seq_start seq_end 100).map vault_packet_t.seq) := by
      apply List.map_congr_left
      intro p _
      simp only [Function.comp_apply]
      exact restamp_seq p
    rw [hmapeq]
    rcases Bool.eq_false_or_eq_true mqtt.memory.initialized with hinit | hinit
    swap
    · unfold vault_memory_get_range
      rw [if_pos (Or.inl hinit)]
      simp [List.Sorted]
    · rw [vault_memory_get_range_eq mqtt.memory seq_start seq_end 100 hinit]
      have hsub : List.Sublist
          ((((vault_memory_valid_window mqtt.memory).filter
            (fun p => decide (seq_start ≤ p.seq ∧ p.seq ≤ seq_end))).take 100).map vault_packet_t.seq)
          ((vault_memory_valid_window mqtt.memory).map vault_packet_t.seq) := by
        apply List.Sublist.map
        exact (List.take_sublist _ _).trans (List.filter_sublist _)
      exact List.Pairwise.sublist hsub hsorted

/-- C7 amended witness: over a window stored in ascending order 3, 5 the
    replayed sequence order is ascending. -/
theorem handle_replay_sorted_of_window_sorted_witness :
    ((vault_memory_valid_window c7_mqtt_in_order.memory).map vault_packet_t.seq).Sorted (· < ·) ∧
    (((vault_mqtt_handle_replay pub_always c7_mqtt_in_order 0 10).2.1.map
      (fun q => q.1.seq)).Sorted (· < ·)) :=
  ⟨by decide, handle_replay_sorted_of_window_sorted pub_always c7_mqtt_in_order 0 10 (by decide)⟩

/-- C8 counterexample: with a publisher that fails every publish, the single
    in-range record is retrieved and attempted, no record is successfully
    published, yet handle_replay returns 1, not the number 0 of successfully
    published records. -/
theorem handle_replay_count_counterexample :
    (vault_mqtt_handle_replay pub_never c8_mqtt_single 0 10).1 = 1 ∧
    ((vault_mqtt_handle_replay pub_never c8_mqtt_single 0 10).2.1.filter
      (fun q => q.2)).length = 0 ∧
    (vault_mqtt_handle_replay pub_never c8_mqtt_single 0 10).1 ≠
    ((vault_mqtt_handle_replay pub_never c8_mqtt_single 0 10).2.1.filter
      (fun q => q.2)).length := by
  refine ⟨by decide, by decide, by decide⟩

/-- C8 amended: handle_replay returns the number of records retrieved and
    passed to the publisher; an individual publish failure is reported only
    through the per-record publish outcome, the remaining batch continues
    (the records attempted do not depend on publish outcomes), and the
    return value does not reflect publish failures. -/
theorem handle_replay_count_is_attempts (pub1 pub2 : List Nat → Bool)
    (mqtt : vault_mqtt_t) (seq_start seq_end : Nat) :
    (vault_mqtt_handle_replay pub1 mqtt seq_start seq_end).1 =
      (vault_mqtt_handle_replay pub1 mqtt seq_start seq_end).2.1.length ∧
    (vault_mqtt_handle_replay pub1 mqtt seq_start seq_end).2.1.map Prod.fst =
      (vault_mqtt_handle_replay pub2 mqtt seq_start seq_end).2.1.map Prod.fst := by
  unfold vault_mqtt_handle_replay
  by_cases hguard : mqtt.initialized = false ∨ mqtt.connected = false
  · simp only [if_pos hguard]
    simp
  · simp only [if_neg hguard]
    constructor
    · simp
    · simp [List.map_map, Function.comp]

/-- C9: replay never mutates stored history: the memory manager state after
    any handle_replay call is the state before it; in particular every
    history slot is unchanged. -/
theorem handle_replay_preserves_history (pub_ok : List Nat → Bool)
    (mqtt : vault_mqtt_t) (seq_start seq_end : Nat) :
    (vault_mqtt_handle_replay pub_ok mqtt seq_start seq_end).2.2 = mqtt.memory ∧
    ∀ i : Nat, ((vault_mqtt_handle_replay pub_ok mqtt seq_start seq_end).2.2).history_slots i =
      mqtt.memory.history_slots i := by
  unfold vault_mqtt_handle_replay
  by_cases hguard : mqtt.initialized = false ∨ mqtt.connected = false
  · rw [if_pos hguard]
    exact ⟨rfl, fun _ => rfl⟩
  · rw [if_neg hguard]
    exact ⟨rfl, fun _ => rfl⟩

/-- Committed contents of the external NVS durable-storage collaborator for
    the key seq_counter in the vault namespace. -/
structure nvs_state where
  seq_value : Option Nat
  deriving DecidableEq, Repr

/-- Combined state of the memory manager and the durable-storage collaborator. -/
structure sys_state where
  mem : vault_memory_t
  nvs : nvs_state

/-- vault_memory_sync_seq_to_nvs (vault_memory.c lines 236-266).  The oracle
    ok aggregates the success of nvs_open, nvs_set_u32 and nvs_commit; on
    success the counter is committed to NVS and seq_last_synced is set to it,
    on any failure the state is unchanged and false is returned. -/
def vault_memory_sync_seq_to_nvs (ok : Bool) (s : sys_state) : Bool × sys_state :=
  if s.mem.initialized = false then (false, s)
  else if ok then
    (true, { mem := { s.mem with seq_last_synced := s.mem.seq_counter },
             nvs := { seq_value := some s.mem.seq_counter } })
  else (false, s)

/-- vault_memory_get_next_seq (vault_memory.c lines 111-126): 0 on an
    uninitialized handle; otherwise return the pre-increment counter,
    increment the counter in 32-bit arithmetic, and sync to NVS when the
    issued value is at least VAULT_SEQ_SYNC_INTERVAL past seq_last_synced
    in unsigned 32-bit subtraction.  The third component records whether a
    successful sync happened during the call (the C code discards it). -/
def vault_memory_get_next_seq (ok : Bool) (s : sys_state) : Nat × sys_state × Bool :=
  if s.mem.initialized = false then (0, s, false)
  else if VAULT_SEQ_SYNC_INTERVAL ≤ u32_sub s.mem.seq_counter s.mem.seq_last_synced then
    (s.mem.seq_counter,
     (vault_memory_sync_seq_to_nvs ok
       { s with mem := { s.mem with seq_counter := (s.mem.seq_counter + 1) % U32_MOD } }).2,
     (vault_memory_sync_seq_to_nvs ok
       { s with mem := { s.mem with seq_counter := (s.mem.seq_counter + 1) % U32_MOD } }).1)
  else
    (s.mem.seq_counter,
     { s with mem := { s.mem with seq_counter := (s.mem.seq_counter + 1) % U32_MOD } },
     false)

/-- vault_memory_get_next_seq at the pointer level: none models a NULL
    handle, for which the C function returns 0 without touching any state. -/
def vault_memory_get_next_seq_opt (ok : Bool) : Option sys_state → Nat × Option sys_state
  | none => (0, none)
  | some s => ((vault_memory_get_next_seq ok s).1, some (vault_memory_get_next_seq ok s).2.1)

/-- Sequence-state part of vault_memory_init (vault_memory.c lines 19-86):
    the struct is zeroed, the counter is loaded from NVS (0 when the key is
    absent), seq_last_synced is set to the counter and initialized to true. -/
def vault_memory_init_model (nvs : nvs_state) : vault_memory_t :=
  { history_slots := fun _ => { head := 0, cmd := 0, seq := 0, pin := 0, flags := 0, val := 0, crc := 0 },
    history_write_pos := 0, history_count := 0,
    seq_counter := match nvs.seq_value with | some v => v | none => 0,
    seq_last_synced := match nvs.seq_value with | some v => v | none => 0,
    initialized := true }

/-- Fresh boot of the system against a given NVS content. -/
def vault_sys_init (nvs : nvs_state) : sys_state :=
  { mem := vault_memory_init_model nvs, nvs := nvs }

/-- Trace of n successive get_next_seq calls: the list of pairs of issued
    value and successful-sync flag, with the final state. -/
def vault_seq_trace (ok : Bool) : Nat → sys_state → List (Nat × Bool) × sys_state
  | 0, s => ([], s)
  | n + 1, s =>
      let r := vault_memory_get_next_seq ok s
      let rest := vault_seq_trace ok n r.2.1
      ((r.1, r.2.2) :: rest.1, rest.2)

/-- Boot state whose persisted counter sits at the top of the u32 range. -/
def c3_wrap_state : sys_state := vault_sys_init { seq_value := some 4294967295 }

/-- Fresh boot state with empty NVS: counter and last-synced both 0. -/
def c5_fresh_state : sys_state := vault_sys_init { seq_value := none }

/-- Uninitialized handle with a nonzero counter. -/
def c10_uninit_state : sys_state :=
  { mem := { history_slots := fun _ => mk_event_packet 0, history_write_pos := 0,
             history_count := 0, seq_counter := 42, seq_last_synced := 40,
             initialized := false },
    nvs := { seq_value := none } }

lemma sync_preserves_counter (ok : Bool) (s : sys_state) :
    (vault_memory_sync_seq_to_nvs ok s).2.mem.seq_counter = s.mem.seq_counter := by
  unfold vault_memory_sync_seq_to_nvs
  split
  · rfl
  · split <;> rfl

lemma sync_preserves_initialized (ok : Bool) (s : sys_state) :
    (vault_memory_sync_seq_to_nvs ok s).2.mem.initialized = s.mem.initialized := by
  unfold vault_memory_sync_seq_to_nvs
  split
  · rfl
  · split <;> rfl

lemma get_next_seq_value (ok : Bool) (s : sys_state) (h : s.mem.initialized = true) :
    (vault_memory_get_next_seq ok s).1 = s.mem.seq_counter := by
  unfold vault_memory_get_next_seq
  rw [if_neg (by simp [h])]
  split <;> rfl

lemma get_next_seq_counter (ok : Bool) (s : sys_state) (h : s.mem.initialized = true) :
    (vault_memory_get_next_seq ok s).2.1.mem.seq_counter = (s.mem.seq_counter + 1) % U32_MOD := by
  unfold vault_memory_get_next_seq
  rw [if_neg (by simp [h])]
  split
  · rw [sync_preserves_counter]
  · rfl

lemma get_next_seq_initialized (ok : Bool) (s : sys_state) (h : s.mem.initialized = true) :
    (vault_memory_get_next_seq ok s).2.1.mem.initialized = true := by
  unfold vault_memory_get_next_seq
  rw [if_neg (by simp [h])]
  split
  · rw [sync_preserves_initialized]; exact h
  · exact h

/-- C3 counterexample: from the reachable boot state whose counter is
    4294967295, two successive calls issue 4294967295 and then 0: the issued
    values wrap and are not strictly increasing with step 1. -/
theorem seq_wrap_counterexample :
    ((vault_seq_trace true 2 c3_wrap_state).1.map Prod.fst) = [4294967295, 0] ∧
    ((vault_seq_trace true 2 c3_wrap_state).1.map Prod.fst).getD 1 0 ≠
      ((vault_seq_trace true 2 c3_wrap_state).1.map Prod.fst).getD 0 0 + 1 ∧
    ¬ ((vault_seq_trace true 2 c3_wrap_state).1.map Prod.fst).Sorted (· < ·) := by
  refine ⟨by decide, by decide, by decide⟩

/-- C3 amended: without a restart and as long as the 32-bit counter does not
    wrap, n successive calls issue the values counter, counter+1, ...,
    counter+n-1: strictly increasing with step 1. -/
theorem seq_monotone_no_wrap (ok : Bool) (s : sys_state) (n : Nat)
    (hinit : s.mem.initialized = true) (hw : s.mem.seq_counter + n ≤ U32_MOD) :
    ((vault_seq_trace ok n s).1.map Prod.fst) =
    (List.range n).map (fun i => s.mem.seq_counter + i) := by
  induction n generalizing s with
  | zero => simp [vault_seq_trace]
  | succ n ih =>
      simp only [vault_seq_trace, List.map_cons]
      rw [get_next_seq_value ok s hinit]
      by_cases htop : s.mem.seq_counter + 1 = U32_MOD
      · have hn : n = 0 := by omega
        subst hn
        simp [vault_seq_trace, List.range_succ]
      · have hmod : (s.mem.seq_counter + 1) % U32_MOD = s.mem.seq_counter + 1 :=
          Nat.mod_eq_of_lt (by omega)
        have h2init := get_next_seq_initialized ok s hinit
        have h2c : (vault_memory_get_next_seq ok s).2.1.mem.seq_counter = s.mem.seq_counter + 1 := by
          rw [get_next_seq_counter ok s hinit, hmod]
        rw [ih (vault_memory_get_next_seq ok s).2.1 h2init (by rw [h2c]; omega), h2c]
        rw [List.range_succ_eq_map]
        simp only [List.map_cons, List.map_map, Nat.add_zero]
        congr 1
        apply List.map_congr_left
        intro j _
        simp only [Function.comp_apply]
        omega

/-- C3 amended witness: three calls from a fresh boot issue 0, 1, 2. -/
theorem seq_monotone_no_wrap_witness :
    c5_fresh_state.mem.initialized = true ∧
    c5_fresh_state.mem.seq_counter + 3 ≤ U32_MOD ∧
    ((vault_seq_trace true 3 c5_fresh_state).1.map Prod.fst) =
      (List.range 3).map (fun i => c5_fresh_state.mem.seq_counter + i) :=
  ⟨rfl, by decide, seq_monotone_no_wrap true c5_fresh_state 3 rfl (by decide)⟩

/-- C5 counterexample: from a fresh boot (counter 0, last synced 0) with an
    always-successful durable store, the first 10 issued identifiers trigger
    no durable sync at all (NVS still empty after 10 calls); the first sync
    happens on the 11th call, which commits counter value 11. -/
theorem sync_interval_counterexample :
    ((vault_seq_trace true 10 c5_fresh_state).1.map Prod.snd) = List.replicate 10 false ∧
    (vault_seq_trace true 10 c5_fresh_state).2.nvs.seq_value = none ∧
    ((vault_seq_trace true 11 c5_fresh_state).1.map Prod.snd) =
      List.replicate 10 false ++ [true] ∧
    (vault_seq_trace true 11 c5_fresh_state).2.nvs.seq_value = some 11 := by
  refine ⟨by decide, by decide, by decide, by decide⟩

lemma seq_trace_no_sync (ok : Bool) (n : Nat) :
    ∀ (s : sys_state), s.mem.initialized = true →
      s.mem.seq_last_synced ≤ s.mem.seq_counter →
      s.mem.seq_counter + n ≤ s.mem.seq_last_synced + VAULT_SEQ_SYNC_INTERVAL →
      s.mem.seq_counter + n < U32_MOD →
      vault_seq_trace ok n s =
        ((List.range n).map (fun i => (s.mem.seq_counter + i, false)),
         { s with mem := { s.mem with seq_counter := s.mem.seq_counter + n } }) := by
  induction n with
  | zero =>
      intro s h1 h2 h3 h4
      obtain ⟨⟨slots, wp, cnt, c, l, ini⟩, nv⟩ := s
      simp [vault_seq_trace]
  | succ n ih =>
      intro s h1 h2 h3 h4
      obtain ⟨⟨slots, wp, cnt, c, l, ini⟩, nv⟩ := s
      simp only at h1 h2 h3 h4
      subst h1
      unfold VAULT_SEQ_SYNC_INTERVAL at h3
      unfold U32_MOD at h4
      have hmod : (c + 1) % U32_MOD = c + 1 := Nat.mod_eq_of_lt (by unfold U32_MOD; omega)
      have hcond : ¬ (VAULT_SEQ_SYNC_INTERVAL ≤ u32_sub c l) := by
        unfold VAULT_SEQ_SYNC_INTERVAL u32_sub U32_MOD
        omega
      simp only [vault_seq_trace, vault_memory_get_next_seq]
      rw [if_neg (by simp), if_neg hcond, hmod]
      rw [ih ⟨⟨slots, wp, cnt, c + 1, l, true⟩, nv⟩ rfl
        (show l ≤ c + 1 by omega)
        (show c + 1 + n ≤ l + VAULT_SEQ_SYNC_INTERVAL by unfold VAULT_SEQ_SYNC_INTERVAL; omega)
        (show c + 1 + n < U32_MOD by unfold U32_MOD; omega)]
      simp only [Prod.mk.injEq]
      constructor
      · rw [List.range_succ_eq_map]
        simp only [List.map_cons, List.map_map, Nat.add_zero]
        congr 1
        apply List.map_congr_left
        intro j _
        simp only [Function.comp_apply]
        congr 1
        omega
      · simp only [sys_state.mk.injEq, vault_memory_t.mk.injEq, true_and, and_true]
        omega

lemma seq_trace_add (ok : Bool) (m n : Nat) :
    ∀ s : sys_state, vault_seq_trace ok (m + n) s =
      ((vault_seq_trace ok m s).1 ++ (vault_seq_trace ok n (vault_seq_trace ok m s).2).1,
       (vault_seq_trace ok n (vault_seq_trace ok m s).2).2) := by
  induction m with
  | zero =>
      intro s
      simp [vault_seq_trace]
  | succ m ih =>
      intro s
      have hadd : m + 1 + n = (m + n) + 1 := by omega
      rw [hadd]
      simp only [vault_seq_trace]
      rw [ih]
      simp [vault_seq_trace]

lemma seq_trace_one_sync (slots : Nat → vault_packet_t) (wp cnt c l : Nat) (nv : nvs_state)
    (hge : l + VAULT_SEQ_SYNC_INTERVAL ≤ c) (hlt : c + 1 < U32_MOD) :
    vault_seq_trace true 1 ⟨⟨slots, wp, cnt, c, l, true⟩, nv⟩ =
      ([(c, true)], ⟨⟨slots, wp, cnt, c + 1, c + 1, true⟩, ⟨some (c + 1)⟩⟩) := by
  unfold U32_MOD at hlt
  have hmod : (c + 1) % U32_MOD = c + 1 := Nat.mod_eq_of_lt (by unfold U32_MOD; omega)
  have hcond : VAULT_SEQ_SYNC_INTERVAL ≤ u32_sub c l := by
    unfold VAULT_SEQ_SYNC_INTERVAL u32_sub U32_MOD
    unfold VAULT_SEQ_SYNC_INTERVAL at hge
    omega
  simp only [vault_seq_trace, vault_memory_get_next_seq, vault_memory_sync_seq_to_nvs]
  rw [if_neg (by simp), if_pos hcond]
  simp only [hmod]
  simp

/-- C5 amended: from any synced state (seq_last_synced = seq_counter, the
    state left behind by a successful sync or a fresh boot), with the durable
    store succeeding and no 32-bit wrap, the next durable sync happens on the
    11th issued identifier, not the 10th: calls 1..10 perform no sync, call
    11 syncs and commits the post-increment counter value counter+11, so
    exactly VAULT_SEQ_SYNC_INTERVAL + 1 = 11 identifiers are issued between
    two consecutive durable syncs. -/
theorem sync_after_eleven (s : sys_state)
    (hinit : s.mem.initialized = true)
    (hsynced : s.mem.seq_last_synced = s.mem.seq_counter)
    (hw : s.mem.seq_counter + 11 < U32_MOD) :
    ((vault_seq_trace true 11 s).1.map Prod.snd) = List.replicate 10 false ++ [true] ∧
    (vault_seq_trace true 11 s).2.mem.seq_counter = s.mem.seq_counter + 11 ∧
    (vault_seq_trace true 11 s).2.mem.seq_last_synced = s.mem.seq_counter + 11 ∧
    (vault_seq_trace true 11 s).2.nvs.seq_value = some (s.mem.seq_counter + 11) := by
  obtain ⟨⟨slots, wp, cnt, c, l, ini⟩, nv⟩ := s
  simp only at hinit hsynced hw
  subst hinit
  subst hsynced
  unfold U32_MOD at hw
  rw [show (11 : Nat) = 10 + 1 from rfl, seq_trace_add true 10 1 _]
  rw [seq_trace_no_sync true 10 ⟨⟨slots, wp, cnt, l, l, true⟩, nv⟩ rfl (le_refl l)
    (show l + 10 ≤ l + VAULT_SEQ_SYNC_INTERVAL by unfold VAULT_SEQ_SYNC_INTERVAL; omega)
    (show l + 10 < U32_MOD by unfold U32_MOD; omega)]
  simp only
  rw [seq_trace_one_sync slots wp cnt (l + 10) l nv
    (show l + VAULT_SEQ_SYNC_INTERVAL ≤ l + 10 by unfold VAULT_SEQ_SYNC_INTERVAL; omega)
    (show l + 10 + 1 < U32_MOD by unfold U32_MOD; omega)]
  refine ⟨?_, by simp, by simp, by simp⟩
  rw [List.map_append, List.map_map]
  simp [List.range_succ]

/-- C5 amended witness: the 11-call sync cycle evaluated from a fresh boot. -/
theorem sync_after_eleven_witness :
    c5_fresh_state.mem.initialized = true ∧
    c5_fresh_state.mem.seq_last_synced = c5_fresh_state.mem.seq_counter ∧
    c5_fresh_state.mem.seq_counter + 11 < U32_MOD ∧
    (((vault_seq_trace true 11 c5_fresh_state).1.map Prod.snd) =
        List.replicate 10 false ++ [true] ∧
      (vault_seq_trace true 11 c5_fresh_state).2.mem.seq_counter =
        c5_fresh_state.mem.seq_counter + 11 ∧
      (vault_seq_trace true 11 c5_fresh_state).2.mem.seq_last_synced =
        c5_fresh_state.mem.seq_counter + 11 ∧
      (vault_seq_trace true 11 c5_fresh_state).2.nvs.seq_value =
        some (c5_fresh_state.mem.seq_counter + 11)) :=
  ⟨rfl, rfl, by decide, sync_after_eleven c5_fresh_state rfl rfl (by decide)⟩

/-- C10: calling get_next_seq on a NULL handle or on a handle whose
    initialized flag is false returns 0 and leaves the state (in particular
    the sequence counter) unchanged; this error value 0 coincides with the
    first identifier legitimately issued after a fresh boot with empty NVS,
    which is also 0. -/
theorem next_seq_error_zero (ok : Bool) (s : sys_state) (h : s.mem.initialized = false) :
    (vault_memory_get_next_seq ok s).1 = 0 ∧
    (vault_memory_get_next_seq ok s).2.1 = s ∧
    (vault_memory_get_next_seq_opt ok none).1 = 0 ∧
    (vault_memory_get_next_seq_opt ok none).2 = none ∧
    (vault_memory_get_next_seq ok (vault_sys_init ⟨none⟩)).1 = 0 := by
  refine ⟨?_, ?_, rfl, rfl, ?_⟩
  · unfold vault_memory_get_next_seq
    rw [if_pos h]
  · unfold vault_memory_get_next_seq
    rw [if_pos h]
  · exact get_next_seq_value ok (vault_sys_init ⟨none⟩) rfl

/-- C10 witness: the error return evaluated on a concrete uninitialized
    handle with counter 42. -/
theorem next_seq_error_zero_witness :
    c10_uninit_state.mem.initialized = false ∧
    ((vault_memory_get_next_seq true c10_uninit_state).1 = 0 ∧
      (vault_memory_get_next_seq true c10_uninit_state).2.1 = c10_uninit_state ∧
      (vault_memory_get_next_seq_opt true none).1 = 0 ∧
      (vault_memory_get_next_seq_opt true none).2 = none ∧
      (vault_memory_get_next_seq true (vault_sys_init ⟨none⟩)).1 = 0) :=
  ⟨rfl, next_seq_error_zero true c10_uninit_state rfl⟩

end EspVault
